import Mathlib

/-!
Verification of `prometheus/testutil/purego/process_collector_cgo_darwin.c`
from prometheus/client_golang.

The C file is a platform layout probe: eleven zero-argument functions, each
returning (as `size_t`) either a kernel macro constant from
`mach/shared_memory_server.h` or a `sizeof` / `offsetof` fact of
`struct mach_task_basic_info` (from `mach/task_info.h`) or
`struct vm_region_basic_info_64` (from `mach/vm_region.h`) on darwin 64-bit.

The embedding models the standard C struct layout algorithm (field offsets by
natural alignment, optional pragma-pack cap, trailing padding to the struct
alignment), transcribes the two structure declarations and the three macro
values from the darwin SDK headers the C file includes, and defines each
accessor exactly as its C body does: a single `return` of a compile-time
constant expression. Statefulness is made explicit: a call takes the process
state and returns it with the `size_t` result, which lets the determinism and
totality properties be stated rather than assumed.
-/

namespace ProcessCollectorCgoDarwin

/-- One field of a C struct declaration: its declared name, the byte size of
its type, and the natural alignment of its type on darwin 64-bit (arm64 and
x86_64 lay out the structures below identically). -/
structure CField where
  fname : String
  fsize : Nat
  falign : Nat

/-- A C struct declaration: an optional pragma-pack cap on field alignment,
and the fields in declaration order. -/
structure CStruct where
  packCap : Option Nat
  fields : List CField

/-- Round `n` up to the next multiple of `a` (C layout padding); `alignUp n 0`
is `n`. -/
def alignUp (n a : Nat) : Nat :=
  if a = 0 then n else (n + a - 1) / a * a

/-- The alignment a field actually gets: its natural alignment, capped by an
active pragma-pack value (as the darwin headers do for
`vm_region_basic_info_64`, which is declared under pack(4)). -/
def effAlign (packCap : Option Nat) (a : Nat) : Nat :=
  match packCap with
  | none => a
  | some p => min a p

/-- The offsets of a C struct's fields laid out in order starting at byte
`off`: each field is placed at the next multiple of its effective alignment. -/
def offsetsFrom (packCap : Option Nat) : List CField → Nat → List (String × Nat)
  | [], _ => []
  | f :: rest, off =>
    let o := alignUp off (effAlign packCap f.falign)
    (f.fname, o) :: offsetsFrom packCap rest (o + f.fsize)

/-- The first free byte after laying out the fields in order from byte `off`. -/
def layoutEnd (packCap : Option Nat) : List CField → Nat → Nat
  | [], off => off
  | f :: rest, off =>
    let o := alignUp off (effAlign packCap f.falign)
    layoutEnd packCap rest (o + f.fsize)

/-- The alignment of the whole struct: the largest effective field alignment. -/
def structAlign (s : CStruct) : Nat :=
  s.fields.foldl (fun m f => max m (effAlign s.packCap f.falign)) 1

/-- `sizeof` of the struct: the end of the field layout, padded up to the
struct alignment. -/
def sizeofStruct (s : CStruct) : Nat :=
  alignUp (layoutEnd s.packCap s.fields 0) (structAlign s)

/-- `offsetof(struct s, n)`; `none` models the C compile error raised when no
field of that name exists. -/
def offsetofField (s : CStruct) (n : String) : Option Nat :=
  (offsetsFrom s.packCap s.fields 0).lookup n

/-- `sizeof` of one named field (the C file's `sizeof(info.n)` idiom); `none`
models the C compile error raised when no field of that name exists. -/
def sizeofFieldOf (s : CStruct) (n : String) : Option Nat :=
  (s.fields.find? (fun f => f.fname == n)).map CField.fsize

/-- `struct mach_task_basic_info`, transcribed from the darwin SDK header
`mach/task_info.h` (included by the C file through `mach/task.h`):
`mach_vm_size_t virtual_size; mach_vm_size_t resident_size;
mach_vm_size_t resident_size_max; time_value_t user_time;
time_value_t system_time; policy_t policy; integer_t suspend_count;`.
`mach_vm_size_t` is a 64-bit unsigned integer (size 8, alignment 8),
`time_value_t` is a struct of two 32-bit `integer_t` (size 8, alignment 4),
`policy_t` and `integer_t` are 32-bit (size 4, alignment 4); no pack pragma. -/
def mach_task_basic_info : CStruct :=
  ⟨none,
   [⟨"virtual_size", 8, 8⟩, ⟨"resident_size", 8, 8⟩,
    ⟨"resident_size_max", 8, 8⟩, ⟨"user_time", 8, 4⟩, ⟨"system_time", 8, 4⟩,
    ⟨"policy", 4, 4⟩, ⟨"suspend_count", 4, 4⟩]⟩

/-- `struct vm_region_basic_info_64`, transcribed from the darwin SDK header
`mach/vm_region.h` (included by the C file through `mach/mach_vm.h`), declared
there under pack(4):
`vm_prot_t protection; vm_prot_t max_protection; vm_inherit_t inheritance;
boolean_t shared; boolean_t reserved; memory_object_offset_t offset;
vm_behavior_t behavior; unsigned short user_wired_count;`.
`vm_prot_t`, `vm_inherit_t`, `boolean_t` and `vm_behavior_t` are 32-bit
(size 4, alignment 4); `memory_object_offset_t` is a 64-bit unsigned integer
(size 8, natural alignment 8, capped to 4 by the pack pragma);
`unsigned short` has size 2, alignment 2. -/
def vm_region_basic_info_64 : CStruct :=
  ⟨some 4,
   [⟨"protection", 4, 4⟩, ⟨"max_protection", 4, 4⟩, ⟨"inheritance", 4, 4⟩,
    ⟨"shared", 4, 4⟩, ⟨"reserved", 4, 4⟩, ⟨"offset", 8, 8⟩,
    ⟨"behavior", 4, 4⟩, ⟨"user_wired_count", 2, 2⟩]⟩

/-- The macro `GLOBAL_SHARED_TEXT_SEGMENT` from the darwin SDK header
`mach/shared_memory_server.h`. -/
def GLOBAL_SHARED_TEXT_SEGMENT : Nat := 0x90000000

/-- The macro `SHARED_TEXT_REGION_SIZE` from the darwin SDK header
`mach/shared_memory_server.h`. -/
def SHARED_TEXT_REGION_SIZE : Nat := 0x10000000

/-- The macro `SHARED_DATA_REGION_SIZE` from the darwin SDK header
`mach/shared_memory_server.h`. -/
def SHARED_DATA_REGION_SIZE : Nat := 0x10000000

/-- `size_t` on darwin 64-bit is 64 bits wide: a value returned as `size_t`
is reduced modulo `2 ^ 64`. -/
def toSizeT (n : Nat) : Nat := n % 2 ^ 64

/-- The eleven accessor functions the C file defines, as a zero-payload
enumeration: each constructor stands for one zero-argument C function. -/
inductive Accessor where
  | globalSharedTextSegment
  | sharedTextRegionSize
  | sharedDataRegionSize
  | sizeofMachTaskBasicInfo
  | offsetMachTaskBasicInfo_virtual_size
  | sizeofMachTaskBasicInfo_virtual_size
  | offsetMachTaskBasicInfo_resident_size
  | sizeofMachTaskBasicInfo_resident_size
  | sizeofVmRegionBasicInfo64
  | offsetVmRegionBasicInfo64_reserved
  | sizeofVmRegionBasicInfo64_reserved

/-- The compile-time value of the single return expression in each accessor's
C body; `none` models a build failure (a `sizeof` or `offsetof` naming a field
that does not exist), which is the only failure mode the component has. -/
def accessorExpr : Accessor → Option Nat
  | .globalSharedTextSegment => some GLOBAL_SHARED_TEXT_SEGMENT
  | .sharedTextRegionSize => some SHARED_TEXT_REGION_SIZE
  | .sharedDataRegionSize => some SHARED_DATA_REGION_SIZE
  | .sizeofMachTaskBasicInfo => some (sizeofStruct mach_task_basic_info)
  | .offsetMachTaskBasicInfo_virtual_size =>
      offsetofField mach_task_basic_info "virtual_size"
  | .sizeofMachTaskBasicInfo_virtual_size =>
      sizeofFieldOf mach_task_basic_info "virtual_size"
  | .offsetMachTaskBasicInfo_resident_size =>
      offsetofField mach_task_basic_info "resident_size"
  | .sizeofMachTaskBasicInfo_resident_size =>
      sizeofFieldOf mach_task_basic_info "resident_size"
  | .sizeofVmRegionBasicInfo64 => some (sizeofStruct vm_region_basic_info_64)
  | .offsetVmRegionBasicInfo64_reserved =>
      offsetofField vm_region_basic_info_64 "reserved"
  | .sizeofVmRegionBasicInfo64_reserved =>
      sizeofFieldOf vm_region_basic_info_64 "reserved"

/-- The mathematical value each accessor computes (the totality theorem shows
`accessorExpr` is never `none`, so the default is never taken). -/
def rawValue (a : Accessor) : Nat := (accessorExpr a).getD 0

/-- The `size_t` value an accessor call returns. -/
def callValue (a : Accessor) : Nat := toSizeT (rawValue a)

def getGlobalSharedTextSegment : Nat := callValue .globalSharedTextSegment

def getSharedTextRegionSize : Nat := callValue .sharedTextRegionSize

def getSharedDataRegionSize : Nat := callValue .sharedDataRegionSize

def getSizeofMachTaskBasicInfo : Nat := callValue .sizeofMachTaskBasicInfo

def getOffsetOfMachTaskBasicInfo_virtual_size : Nat :=
  callValue .offsetMachTaskBasicInfo_virtual_size

def getSizeofMachTaskBasicInfo_virtual_size : Nat :=
  callValue .sizeofMachTaskBasicInfo_virtual_size

def getOffsetOfMachTaskBasicInfo_resident_size : Nat :=
  callValue .offsetMachTaskBasicInfo_resident_size

def getSizeofMachTaskBasicInfo_resident_size : Nat :=
  callValue .sizeofMachTaskBasicInfo_resident_size

def getSizeofVmRegionBasicInfo64 : Nat := callValue .sizeofVmRegionBasicInfo64

def getOffsetOfVmRegionBasicInfo64_reserved : Nat :=
  callValue .offsetVmRegionBasicInfo64_reserved

def getSizeofVmRegionBasicInfo64_reserved : Nat :=
  callValue .sizeofVmRegionBasicInfo64_reserved

/-- The mutable process state a C function could in principle read or write;
the accessor bodies touch no global and perform no I/O. -/
structure ProcState where
  globals : Nat → Nat

/-- Calling one accessor in state `σ`: the returned `size_t` and the state
after the call. Direct translation of the C bodies, each of which is a single
`return` of a compile-time constant and neither reads nor writes any global
(the two local uninitialized structs exist only to take `sizeof`). -/
def callAccessor (a : Accessor) (σ : ProcState) : Nat × ProcState :=
  (callValue a, σ)

/-- Running a sequence of accessor calls in order, threading the state. -/
def runCalls : List Accessor → ProcState → List Nat × ProcState
  | [], σ => ([], σ)
  | a :: rest, σ =>
    let r := callAccessor a σ
    let rs := runCalls rest r.2
    (r.1 :: rs.1, rs.2)

/-- A concrete process state, used to instantiate the stateful theorems. -/
def initState : ProcState := ⟨fun _ => 0⟩

/-- C1: every structural-fact accessor returns exactly the corresponding
`sizeof` / `offsetof` fact of the named native structure on the target
platform: `getSizeofMachTaskBasicInfo` the size of
`struct mach_task_basic_info`, the offset and size accessors the byte offset
and byte size of its `virtual_size` and `resident_size` fields, and likewise
for `struct vm_region_basic_info_64` and its `reserved` field. -/
theorem structural_accessors_match_layout_facts :
    getSizeofMachTaskBasicInfo = sizeofStruct mach_task_basic_info ∧
    some getOffsetOfMachTaskBasicInfo_virtual_size =
      offsetofField mach_task_basic_info "virtual_size" ∧
    some getSizeofMachTaskBasicInfo_virtual_size =
      sizeofFieldOf mach_task_basic_info "virtual_size" ∧
    some getOffsetOfMachTaskBasicInfo_resident_size =
      offsetofField mach_task_basic_info "resident_size" ∧
    some getSizeofMachTaskBasicInfo_resident_size =
      sizeofFieldOf mach_task_basic_info "resident_size" ∧
    getSizeofVmRegionBasicInfo64 = sizeofStruct vm_region_basic_info_64 ∧
    some getOffsetOfVmRegionBasicInfo64_reserved =
      offsetofField vm_region_basic_info_64 "reserved" ∧
    some getSizeofVmRegionBasicInfo64_reserved =
      sizeofFieldOf vm_region_basic_info_64 "reserved" := by
  decide

/-- C2: each probed field fits within its owning structure: field offset plus
field size is at most the structure's size, for `virtual_size` and
`resident_size` in `mach_task_basic_info` and for `reserved` in
`vm_region_basic_info_64`. -/
theorem probed_fields_fit_within_struct :
    getOffsetOfMachTaskBasicInfo_virtual_size +
        getSizeofMachTaskBasicInfo_virtual_size ≤
      getSizeofMachTaskBasicInfo ∧
    getOffsetOfMachTaskBasicInfo_resident_size +
        getSizeofMachTaskBasicInfo_resident_size ≤
      getSizeofMachTaskBasicInfo ∧
    getOffsetOfVmRegionBasicInfo64_reserved +
        getSizeofVmRegionBasicInfo64_reserved ≤
      getSizeofVmRegionBasicInfo64 := by
  decide

/-- C3: the byte ranges reported for the two statistics fields of
`mach_task_basic_info` do not overlap: the half-open interval of
`virtual_size` bytes is disjoint from the half-open interval of
`resident_size` bytes. -/
theorem stat_field_byte_ranges_disjoint :
    Disjoint
      (Finset.Ico getOffsetOfMachTaskBasicInfo_virtual_size
        (getOffsetOfMachTaskBasicInfo_virtual_size +
          getSizeofMachTaskBasicInfo_virtual_size))
      (Finset.Ico getOffsetOfMachTaskBasicInfo_resident_size
        (getOffsetOfMachTaskBasicInfo_resident_size +
          getSizeofMachTaskBasicInfo_resident_size)) := by
  decide

/-- C4: `getSharedTextRegionSize` and `getSharedDataRegionSize` return
strictly positive fixed constants equal to the kernel-header values
`SHARED_TEXT_REGION_SIZE` and `SHARED_DATA_REGION_SIZE`. -/
theorem shared_region_sizes_match_kernel_constants :
    getSharedTextRegionSize = SHARED_TEXT_REGION_SIZE ∧
    getSharedDataRegionSize = SHARED_DATA_REGION_SIZE ∧
    0 < getSharedTextRegionSize ∧
    0 < getSharedDataRegionSize := by
  decide

/-- C5: every accessor is deterministic and stateless: in any sequence of
accessor calls, from any process state, each call returns the fixed value of
its accessor — independent of order, interleaving and state — and leaves the
process state unchanged, so two calls of the same accessor always return
identical values. -/
theorem accessors_deterministic_and_stateless
    (calls : List Accessor) (σ : ProcState) :
    runCalls calls σ = (calls.map callValue, σ) := by
  induction calls with
  | nil => rfl
  | cons a rest ih => simp [runCalls, callAccessor, ih]

/-- C6: every accessor is a zero-argument total function that always
succeeds: its body's compile-time expression resolves to a single unsigned
integer (`accessorExpr` is never `none` — no name fails to resolve), and the
call returns that integer as `size_t` from any state with no error path. -/
theorem accessors_total_and_error_free (a : Accessor) (σ : ProcState) :
    ∃ v : Nat, accessorExpr a = some v ∧ callAccessor a σ = (toSizeT v, σ) := by
  cases a <;> exact ⟨_, rfl, rfl⟩

/-- C7: for every accessor, the returned value (a natural number, hence
non-negative) is representable in a 64-bit unsigned integer: the mathematical
value is below `2 ^ 64`, so the `size_t` reduction returns it unchanged. -/
theorem accessor_values_fit_in_64_bits (a : Accessor) :
    rawValue a < 2 ^ 64 ∧ callValue a = rawValue a := by
  cases a <;> decide

/-- C8: `getSizeofMachTaskBasicInfo` is at least the sum of the sizes of the
`virtual_size` and `resident_size` fields; each of those fields is at least 8
bytes, and the structure size is at least 16. -/
theorem task_basic_info_size_covers_known_fields :
    8 ≤ getSizeofMachTaskBasicInfo_virtual_size ∧
    8 ≤ getSizeofMachTaskBasicInfo_resident_size ∧
    getSizeofMachTaskBasicInfo_virtual_size +
        getSizeofMachTaskBasicInfo_resident_size ≤
      getSizeofMachTaskBasicInfo ∧
    16 ≤ getSizeofMachTaskBasicInfo := by
  decide

/-- C9: `virtual_size` is the first field of `mach_task_basic_info` and
`resident_size` immediately follows it: the `virtual_size` offset is 0, both
field sizes are 8, and the `resident_size` offset equals the `virtual_size`
field size. -/
theorem stat_fields_adjacent_at_struct_start :
    getOffsetOfMachTaskBasicInfo_virtual_size = 0 ∧
    getSizeofMachTaskBasicInfo_virtual_size = 8 ∧
    getSizeofMachTaskBasicInfo_resident_size = 8 ∧
    getOffsetOfMachTaskBasicInfo_resident_size =
      getSizeofMachTaskBasicInfo_virtual_size := by
  decide

/-- C10: the shared text and shared data regions have the same size on the
target platform: `getSharedTextRegionSize` equals `getSharedDataRegionSize`. -/
theorem shared_text_and_data_region_sizes_equal :
    getSharedTextRegionSize = getSharedDataRegionSize := by
  decide

end ProcessCollectorCgoDarwin
